import Mathlib

/-!
Verification of the fitness repository: a shallow embedding of the
session-tracking service (`new-workout-plan-api.py`) and the weekly plan
generator (`main.py`), with theorems settling the specification claims.

Machine integers of the source are Python's unbounded `int`, embedded as
`Int` (or `Nat` where the source value is a count); the float mean
`sum / len` is embedded as exact rational division.  The process-wide
mutable dictionary `workout_history` is embedded as an insertion-ordered
association list threaded through each endpoint.
-/

set_option autoImplicit false

namespace Fitness

/-- FastAPI's `HTTPException(status_code, detail)`. -/
structure HTTPException where
  status_code : Nat
  detail : String
deriving DecidableEq, Repr

namespace Api

/-- Enum `MuscleGroup(str, Enum)` of `new-workout-plan-api.py`. -/
inductive MuscleGroup where
  | CHEST
  | BACK
  | SHOULDERS
  | BICEPS
  | TRICEPS
  | LEGS
  | CORE
deriving DecidableEq, Repr

/-- The `.value` string of each enum member. -/
def MuscleGroup.value : MuscleGroup → String
  | .CHEST => "Chest"
  | .BACK => "Back"
  | .SHOULDERS => "Shoulders"
  | .BICEPS => "Biceps"
  | .TRICEPS => "Triceps"
  | .LEGS => "Legs"
  | .CORE => "Core"

/-- Pydantic model `Exercise`. -/
structure Exercise where
  id : String
  name : String
  muscle_groups : List MuscleGroup
  description : String
  equipment_needed : Option String
  difficulty_level : String
  recommended_rest : Int
deriving DecidableEq, Repr

/-- Pydantic model `ExerciseSelection`. -/
structure ExerciseSelection where
  exercise_id : String
  sets : Int
  reps : Int
  rest_time : Int
deriving DecidableEq, Repr

/-- Pydantic model `WorkoutSession`. -/
structure WorkoutSession where
  date : String
  exercises : List ExerciseSelection
deriving DecidableEq, Repr

/-- Pydantic model `WorkoutCompletion`. -/
structure WorkoutCompletion where
  exercise_id : String
  completed_sets : Int
  actual_reps : List Int
  time_taken : Int
  difficulty_rating : Int
deriving DecidableEq, Repr

/-- Pydantic model `WorkoutHistory`; the float `overall_difficulty` is kept
exactly, as a rational. -/
structure WorkoutHistory where
  session_id : String
  date : String
  exercises_completed : List WorkoutCompletion
  total_time : Int
  overall_difficulty : Rat
deriving DecidableEq, Repr

/-- The module-level `EXERCISE_DATABASE` dictionary, in insertion order. -/
def EXERCISE_DATABASE : List (String × Exercise) :=
  [("push-up-001",
    { id := "push-up-001"
      name := "Push-ups"
      muscle_groups := [MuscleGroup.CHEST, MuscleGroup.SHOULDERS, MuscleGroup.TRICEPS]
      description := "Standard push-up position, lower body until chest nearly touches ground"
      equipment_needed := none
      difficulty_level := "beginner"
      recommended_rest := 60 }),
   ("squat-001",
    { id := "squat-001"
      name := "Bodyweight Squats"
      muscle_groups := [MuscleGroup.LEGS]
      description := "Stand with feet shoulder-width apart, lower body until thighs are parallel to ground"
      equipment_needed := none
      difficulty_level := "beginner"
      recommended_rest := 60 })]

/-- Lookup `db.get(id)` on a Python dict embedded as an association list. -/
def dbGet (db : List (String × Exercise)) (id : String) : Option Exercise :=
  match db.find? (fun p => p.1 == id) with
  | some p => some p.2
  | none => none

/-- The id of the first selection whose exercise id is missing from the
catalog, if any — the id named in the 400 error both validation loops raise. -/
def firstUnknown (db : List (String × Exercise))
    (sels : List ExerciseSelection) : Option String :=
  (sels.find? (fun s => (dbGet db s.exercise_id).isNone)).map
    (fun s => s.exercise_id)

/-- The in-memory `workout_history` dict: insertion-ordered key/value list. -/
abbrev HistoryMap := List (String × WorkoutHistory)

/-- Python dict assignment `hist[key] = val`: replace in place when the key
exists, otherwise append (insertion order preserved). -/
def storeSet : HistoryMap → String → WorkoutHistory → HistoryMap
  | [], key, val => [(key, val)]
  | p :: rest, key, val =>
    if p.1 = key then (key, val) :: rest else p :: storeSet rest key val

/-- Python dict lookup `hist.get(key)`. -/
def storeGet : HistoryMap → String → Option WorkoutHistory
  | [], _ => none
  | p :: rest, key => if p.1 = key then some p.2 else storeGet rest key

/-- Result dictionary of `POST /validate-workout`. -/
structure ValidationResult where
  is_valid : Bool
  warnings : List String
  muscle_group_distribution : List (MuscleGroup × Nat)
deriving DecidableEq, Repr

/-- Read `muscle_group_count.get(muscle, 0)` on the counting dict. -/
def getCount : List (MuscleGroup × Nat) → MuscleGroup → Nat
  | [], _ => 0
  | p :: rest, g => if p.1 = g then p.2 else getCount rest g

/-- Dict assignment `muscle_group_count[g] = n`. -/
def setCount : List (MuscleGroup × Nat) → MuscleGroup → Nat → List (MuscleGroup × Nat)
  | [], g, n => [(g, n)]
  | p :: rest, g, n => if p.1 = g then (g, n) :: rest else p :: setCount rest g n

/-- Increment `muscle_group_count[g] = muscle_group_count.get(g, 0) + 1`. -/
def incrCount (counts : List (MuscleGroup × Nat)) (g : MuscleGroup) :
    List (MuscleGroup × Nat) :=
  setCount counts g (getCount counts g + 1)

/-- The warning f-string appended by `validate_workout` when a muscle group
count exceeds 2. -/
def warningMsg (g : MuscleGroup) (count : Nat) : String :=
  "Warning: " ++ g.value ++ " is being trained " ++ toString count ++
    " times. This might lead to excessive fatigue. Consider spreading exercises across different muscle groups."

/-- Inner loop of `validate_workout`: for each muscle group of one resolved
exercise, bump its counter and append a warning once the counter passes 2. -/
def tallyGroups (counts : List (MuscleGroup × Nat)) (warnings : List String) :
    List MuscleGroup → List (MuscleGroup × Nat) × List String
  | [] => (counts, warnings)
  | g :: gs =>
    let counts1 := incrCount counts g
    let c := getCount counts1 g
    let warnings1 := if 2 < c then warnings ++ [warningMsg g c] else warnings
    tallyGroups counts1 warnings1 gs

/-- Outer loop of `validate_workout` over the selections: resolve each id in
the catalog (400 on the first miss) and tally its muscle groups. -/
def validateLoop (db : List (String × Exercise)) (counts : List (MuscleGroup × Nat))
    (warnings : List String) :
    List ExerciseSelection → Except HTTPException (List (MuscleGroup × Nat) × List String)
  | [] => Except.ok (counts, warnings)
  | selection :: rest =>
    match dbGet db selection.exercise_id with
    | none => Except.error
        { status_code := 400
          detail := "Exercise " ++ selection.exercise_id ++ " not found" }
    | some exercise =>
      let st := tallyGroups counts warnings exercise.muscle_groups
      validateLoop db st.1 st.2 rest

/-- Endpoint `POST /validate-workout` (`validate_workout` in the source). -/
def validate_workout (db : List (String × Exercise))
    (selections : List ExerciseSelection) : Except HTTPException ValidationResult :=
  match validateLoop db [] [] selections with
  | Except.error e => Except.error e
  | Except.ok st =>
    Except.ok
      { is_valid := st.2.length == 0
        warnings := st.2
        muscle_group_distribution := st.1 }

/-- One entry of the `exercise_plan` list built by `start_workout`: the
catalog record's fields merged with the planned sets/reps/rest. -/
structure ExercisePlanEntry where
  exercise : Exercise
  planned_sets : Int
  planned_reps : Int
  rest_time : Int
deriving DecidableEq, Repr

/-- Response dictionary of `POST /start-workout`. -/
structure StartResponse where
  session_id : String
  started_at : String
  exercise_plan : List ExercisePlanEntry
deriving DecidableEq, Repr

/-- The validation-plus-merge over `workout.exercises` done by
`start_workout`: 400 on the first id missing from the catalog, otherwise the
merged plan entries in order. -/
def buildPlan (db : List (String × Exercise)) :
    List ExerciseSelection → Except HTTPException (List ExercisePlanEntry)
  | [] => Except.ok []
  | ex :: rest =>
    match dbGet db ex.exercise_id with
    | none => Except.error
        { status_code := 400
          detail := "Exercise " ++ ex.exercise_id ++ " not found" }
    | some e =>
      (buildPlan db rest).map (fun plan =>
        { exercise := e
          planned_sets := ex.sets
          planned_reps := ex.reps
          rest_time := ex.rest_time } :: plan)

/-- Endpoint `POST /start-workout` (`start_workout` in the source).  The session id is
`"workout_" ++ strftime stamp` of the current time; both timestamp strings
are passed in explicitly. -/
def start_workout (db : List (String × Exercise)) (now_stamp now_iso : String)
    (workout : WorkoutSession) : Except HTTPException StartResponse :=
  let session_id := "workout_" ++ now_stamp
  (buildPlan db workout.exercises).map (fun plan =>
    { session_id := session_id
      started_at := now_iso
      exercise_plan := plan })

/-- The `history_entry` record built by `complete_workout`: `total_time` is
the sum of the `time_taken` fields and `overall_difficulty` the rational
mean of the `difficulty_rating` fields. -/
def completeEntry (now_iso session_id : String)
    (completion : List WorkoutCompletion) : WorkoutHistory :=
  { session_id := session_id
    date := now_iso
    exercises_completed := completion
    total_time := (completion.map (fun ex => ex.time_taken)).sum
    overall_difficulty :=
      (((completion.map (fun ex => ex.difficulty_rating)).sum : Int) : Rat) /
        ((completion.length : Nat) : Rat) }

/-- Endpoint `POST /complete-workout/{session_id}` (`complete_workout` in the source):
reject an empty completion list with 400, otherwise build the
`WorkoutHistory` entry, store it under the session id, and return it. -/
def complete_workout (now_iso : String) (session_id : String)
    (completion : List WorkoutCompletion) (hist : HistoryMap) :
    Except HTTPException WorkoutHistory × HistoryMap :=
  if completion.isEmpty then
    (Except.error { status_code := 400, detail := "No exercises completed" }, hist)
  else
    let history_entry := completeEntry now_iso session_id completion
    (Except.ok history_entry, storeSet hist session_id history_entry)

/-- Character-list prefix test, the meaning of Python's `str.startswith`. -/
def charsStart : List Char → List Char → Bool
  | _, [] => true
  | [], _ :: _ => false
  | c :: cs, p :: ps => c == p && charsStart cs ps

/-- Python's `s.startswith(pre)`. -/
def strStartsWith (s pre : String) : Bool :=
  charsStart s.data pre.data

/-- Response of `GET /workout-history/{date}`: either the empty-sentinel
message dictionary or the list of matching histories. -/
inductive HistoryResponse where
  | message (text : String)
  | histories (sessions : List WorkoutHistory)
deriving DecidableEq, Repr

/-- Endpoint `GET /workout-history/{date}` (`get_workout_history` in the source):
filter the stored values by date prefix, returning the sentinel when the
filtered list is empty. -/
def get_workout_history (date : String) (hist : HistoryMap) : HistoryResponse :=
  let daily_history :=
    (hist.map Prod.snd).filter (fun session => strStartsWith session.date date)
  if daily_history.isEmpty then
    HistoryResponse.message "No workouts found for this date"
  else
    HistoryResponse.histories daily_history

/-- Response of `GET /export-history/{date}`. -/
inductive ExportResponse where
  | message (text : String)
  | exportData (date : String) (total_sessions : Nat) (sessions : List WorkoutHistory)
deriving DecidableEq, Repr

/-- Endpoint `GET /export-history/{date}` (`export_workout_history` in the source). -/
def export_workout_history (date : String) (hist : HistoryMap) : ExportResponse :=
  match get_workout_history date hist with
  | HistoryResponse.message text => ExportResponse.message text
  | HistoryResponse.histories daily_history =>
    ExportResponse.exportData date daily_history.length daily_history

/-- The mutable module state of `new-workout-plan-api.py`: the exercise
catalog global and the `workout_history` dict. -/
structure ServerState where
  exercise_database : List (String × Exercise)
  workout_history : HistoryMap
deriving DecidableEq, Repr

/-- One HTTP request to the session-tracking service, with the wall-clock
strings a handler would read from `datetime.now()` passed explicitly. -/
inductive Request where
  | getExercises
  | getExercisesByMuscle (muscle_group : MuscleGroup)
  | validateWorkout (selections : List ExerciseSelection)
  | startWorkout (now_stamp now_iso : String) (workout : WorkoutSession)
  | completeWorkout (now_iso : String) (session_id : String)
      (completion : List WorkoutCompletion)
  | workoutHistory (date : String)
  | exportHistory (date : String)
deriving DecidableEq, Repr

/-- Whether a request is a `POST /complete-workout/{session_id}` call. -/
def Request.isComplete : Request → Bool
  | Request.completeWorkout _ _ _ => true
  | _ => false

/-- One HTTP response of the session-tracking service. -/
inductive Response where
  | exercises (l : List Exercise)
  | validation (v : ValidationResult)
  | started (r : StartResponse)
  | completed (h : WorkoutHistory)
  | history (r : HistoryResponse)
  | exported (r : ExportResponse)
  | failure (e : HTTPException)
deriving DecidableEq, Repr

/-- The request dispatcher of `new-workout-plan-api.py` as a state
transformer: each handler reads the module globals from the state, and only
`complete_workout` writes `workout_history`. -/
def step (st : ServerState) : Request → Response × ServerState
  | Request.getExercises =>
    (Response.exercises (st.exercise_database.map Prod.snd), st)
  | Request.getExercisesByMuscle g =>
    (Response.exercises
      ((st.exercise_database.map Prod.snd).filter
        (fun e => e.muscle_groups.contains g)), st)
  | Request.validateWorkout selections =>
    (match validate_workout st.exercise_database selections with
     | Except.ok v => Response.validation v
     | Except.error e => Response.failure e, st)
  | Request.startWorkout now_stamp now_iso workout =>
    (match start_workout st.exercise_database now_stamp now_iso workout with
     | Except.ok r => Response.started r
     | Except.error e => Response.failure e, st)
  | Request.completeWorkout now_iso session_id completion =>
    match complete_workout now_iso session_id completion st.workout_history with
    | (Except.ok h, hist1) =>
      (Response.completed h, { st with workout_history := hist1 })
    | (Except.error e, hist1) =>
      (Response.failure e, { st with workout_history := hist1 })
  | Request.workoutHistory date =>
    (Response.history (get_workout_history date st.workout_history), st)
  | Request.exportHistory date =>
    (Response.exported (export_workout_history date st.workout_history), st)

end Api

namespace Planner

/-- Pydantic model `WorkoutPlanRequest` of `main.py`. -/
structure WorkoutPlanRequest where
  fitness_level : String
  duration_minutes : Int
  start_date : String
deriving DecidableEq, Repr

/-- Pydantic model `Exercise` of `main.py` (library entry). -/
structure Exercise where
  name : String
  sets : Int
  reps : String
  rest_seconds : Int
deriving DecidableEq, Repr

/-- Pydantic model `WorkoutDay`. -/
structure WorkoutDay where
  day : String
  focus_area : String
  exercises : List Exercise
  calories_burn_estimate : Int
deriving DecidableEq, Repr

/-- Pydantic model `Meal`. -/
structure Meal where
  name : String
  calories : Int
  protein : Int
  carbs : Int
  fats : Int
  description : String
deriving DecidableEq, Repr

/-- Pydantic model `DietDay`. -/
structure DietDay where
  day : String
  total_calories : Int
  meals : List Meal
deriving DecidableEq, Repr

/-- Pydantic model `WeeklyPlan`. -/
structure WeeklyPlan where
  workout_plan : List WorkoutDay
  diet_plan : List DietDay
deriving DecidableEq, Repr

/-- Table `EXERCISE_LIBRARY["beginner"]["Upper Body"]`. -/
def beginnerUpper : List Exercise :=
  [{ name := "Push-ups", sets := 3, reps := "8-10", rest_seconds := 60 },
   { name := "Band Rows", sets := 3, reps := "12", rest_seconds := 60 },
   { name := "Shoulder Press", sets := 3, reps := "10", rest_seconds := 60 }]

/-- Table `EXERCISE_LIBRARY["beginner"]["Lower Body"]`. -/
def beginnerLower : List Exercise :=
  [{ name := "Bodyweight Squats", sets := 3, reps := "12-15", rest_seconds := 60 },
   { name := "Lunges", sets := 3, reps := "10 each leg", rest_seconds := 60 },
   { name := "Glute Bridges", sets := 3, reps := "15", rest_seconds := 45 }]

/-- Table `EXERCISE_LIBRARY["beginner"]["Core"]`. -/
def beginnerCore : List Exercise :=
  [{ name := "Plank", sets := 3, reps := "30 seconds", rest_seconds := 45 },
   { name := "Crunches", sets := 3, reps := "15", rest_seconds := 45 },
   { name := "Bird Dogs", sets := 3, reps := "10 each side", rest_seconds := 45 }]

/-- Table `EXERCISE_LIBRARY["advanced"]["Upper Body"]`. -/
def advancedUpper : List Exercise :=
  [{ name := "Diamond Push-ups", sets := 4, reps := "15-20", rest_seconds := 45 },
   { name := "Pull-ups", sets := 4, reps := "8-10", rest_seconds := 60 },
   { name := "Dips", sets := 4, reps := "12-15", rest_seconds := 60 }]

/-- Table `EXERCISE_LIBRARY["advanced"]["Lower Body"]`. -/
def advancedLower : List Exercise :=
  [{ name := "Jump Squats", sets := 4, reps := "20", rest_seconds := 45 },
   { name := "Bulgarian Split Squats", sets := 4, reps := "12 each leg", rest_seconds := 45 },
   { name := "Box Jumps", sets := 4, reps := "15", rest_seconds := 60 }]

/-- Table `EXERCISE_LIBRARY["advanced"]["Core"]`. -/
def advancedCore : List Exercise :=
  [{ name := "Hanging Leg Raises", sets := 4, reps := "15", rest_seconds := 45 },
   { name := "Russian Twists", sets := 4, reps := "20 each side", rest_seconds := 45 },
   { name := "Ab Wheel Rollouts", sets := 4, reps := "12", rest_seconds := 60 }]

/-- The nested dict `EXERCISE_LIBRARY[level][focus]` as a total lookup
(unknown keys, which the handler never reaches, give the empty list). -/
def EXERCISE_LIBRARY (fitness_level focus_area : String) : List Exercise :=
  if fitness_level = "beginner" then
    if focus_area = "Upper Body" then beginnerUpper
    else if focus_area = "Lower Body" then beginnerLower
    else if focus_area = "Core" then beginnerCore
    else []
  else if fitness_level = "advanced" then
    if focus_area = "Upper Body" then advancedUpper
    else if focus_area = "Lower Body" then advancedLower
    else if focus_area = "Core" then advancedCore
    else []
  else []

/-- Table `MEAL_LIBRARY["beginner"]`, one list per meal type. -/
def beginnerBreakfast : List Meal :=
  [{ name := "Oatmeal with Banana and Honey", calories := 350, protein := 12,
     carbs := 65, fats := 6,
     description := "1 cup oatmeal, 1 banana, 1 tbsp honey, 1 cup milk" },
   { name := "Greek Yogurt Parfait", calories := 300, protein := 20,
     carbs := 45, fats := 8,
     description := "1 cup Greek yogurt, mixed berries, granola" }]

/-- Table `MEAL_LIBRARY["beginner"]["Lunch"]`. -/
def beginnerLunch : List Meal :=
  [{ name := "Turkey Sandwich", calories := 400, protein := 25,
     carbs := 45, fats := 12,
     description := "Whole grain bread, turkey, lettuce, tomato, mayo" },
   { name := "Chicken Caesar Salad", calories := 350, protein := 30,
     carbs := 15, fats := 20,
     description := "Romaine lettuce, grilled chicken, Caesar dressing, croutons" }]

/-- Table `MEAL_LIBRARY["beginner"]["Dinner"]`. -/
def beginnerDinner : List Meal :=
  [{ name := "Grilled Chicken with Rice", calories := 450, protein := 35,
     carbs := 55, fats := 10,
     description := "6oz chicken breast, 1 cup brown rice, steamed vegetables" },
   { name := "Baked Salmon with Sweet Potato", calories := 500, protein := 40,
     carbs := 45, fats := 15,
     description := "6oz salmon, 1 medium sweet potato, asparagus" }]

/-- Table `MEAL_LIBRARY["advanced"]["Breakfast"]`. -/
def advancedBreakfast : List Meal :=
  [{ name := "Protein Oatmeal", calories := 450, protein := 35,
     carbs := 65, fats := 8,
     description := "1 cup oatmeal, 1 scoop protein powder, banana, almond butter" },
   { name := "Egg White Omelet", calories := 400, protein := 40,
     carbs := 20, fats := 15,
     description := "6 egg whites, vegetables, cheese, whole grain toast" }]

/-- Table `MEAL_LIBRARY["advanced"]["Lunch"]`. -/
def advancedLunch : List Meal :=
  [{ name := "Chicken Rice Bowl", calories := 550, protein := 45,
     carbs := 65, fats := 12,
     description := "8oz chicken breast, 1.5 cups brown rice, vegetables, avocado" },
   { name := "Tuna Pasta Salad", calories := 500, protein := 40,
     carbs := 60, fats := 15,
     description := "2 cans tuna, whole grain pasta, mixed vegetables, olive oil dressing" }]

/-- Table `MEAL_LIBRARY["advanced"]["Dinner"]`. -/
def advancedDinner : List Meal :=
  [{ name := "Steak with Sweet Potato", calories := 650, protein := 50,
     carbs := 55, fats := 25,
     description := "8oz lean steak, large sweet potato, broccoli" },
   { name := "Turkey Meatballs with Quinoa", calories := 600, protein := 45,
     carbs := 65, fats := 20,
     description := "6oz turkey meatballs, 1.5 cups quinoa, roasted vegetables" }]

/-- The nested dict `MEAL_LIBRARY[level][meal_type]` as a total lookup. -/
def MEAL_LIBRARY (fitness_level meal_type : String) : List Meal :=
  if fitness_level = "beginner" then
    if meal_type = "Breakfast" then beginnerBreakfast
    else if meal_type = "Lunch" then beginnerLunch
    else if meal_type = "Dinner" then beginnerDinner
    else []
  else if fitness_level = "advanced" then
    if meal_type = "Breakfast" then advancedBreakfast
    else if meal_type = "Lunch" then advancedLunch
    else if meal_type = "Dinner" then advancedDinner
    else []
  else []

/-- A calendar date, the result of `datetime.strptime(s, "%Y-%m-%d")`. -/
structure PlanDate where
  year : Nat
  month : Nat
  day : Nat
deriving DecidableEq, Repr

/-- Gregorian leap-year rule used by `datetime`. -/
def isLeapYear (y : Nat) : Bool :=
  y % 4 == 0 && (y % 100 != 0 || y % 400 == 0)

/-- Number of days in a month, as validated by the `datetime` constructor. -/
def daysInMonth (y m : Nat) : Nat :=
  if m = 2 then (if isLeapYear y then 29 else 28)
  else if m = 4 ∨ m = 6 ∨ m = 9 ∨ m = 11 then 30
  else 31

/-- Split a character list at every occurrence of a separator (the meaning
of Python's `str.split` with a one-character separator, empty parts kept). -/
def splitOnChar (sep : Char) : List Char → List (List Char)
  | [] => [[]]
  | c :: cs =>
    let r := splitOnChar sep cs
    if c == sep then [] :: r
    else
      match r with
      | [] => [[c]]
      | h :: t => (c :: h) :: t

/-- Parse a non-empty all-digit character list as a decimal number. -/
def charsToNat? (cs : List Char) : Option Nat :=
  if cs ≠ [] ∧ cs.all (fun c => c.isDigit) then
    some (cs.foldl (fun acc c => acc * 10 + (c.toNat - 48)) 0)
  else
    none

/-- Model of `datetime.strptime(s, "%Y-%m-%d")`: exactly three dash-separated digit
fields — a 4-digit year ≥ 1, a 1–2 digit month in 1..12, a 1–2 digit day
valid for that month — with nothing left over; `none` models the
`ValueError`. -/
def parseDate (s : String) : Option PlanDate :=
  match splitOnChar '-' s.data with
  | [ys, ms, ds] =>
    match charsToNat? ys, charsToNat? ms, charsToNat? ds with
    | some y, some m, some d =>
      if ys.length = 4 ∧ (ms.length = 1 ∨ ms.length = 2) ∧
          (ds.length = 1 ∨ ds.length = 2) ∧ 1 ≤ y ∧ 1 ≤ m ∧ m ≤ 12 ∧
          1 ≤ d ∧ d ≤ daysInMonth y m then
        some { year := y, month := m, day := d }
      else
        none
    | _, _, _ => none
  | _ => none

/-- Advance a date by one calendar day. -/
def nextDay (dt : PlanDate) : PlanDate :=
  if dt.day < daysInMonth dt.year dt.month then { dt with day := dt.day + 1 }
  else if dt.month < 12 then { year := dt.year, month := dt.month + 1, day := 1 }
  else { year := dt.year + 1, month := 1, day := 1 }

/-- Date shift `start_date + timedelta(days=n)`. -/
def addDays (dt : PlanDate) : Nat → PlanDate
  | 0 => dt
  | n + 1 => nextDay (addDays dt n)

/-- Weekday name `strftime("%A")`: the weekday name, computed by Zeller's congruence
(`h = 0` is Saturday). -/
def dayName (dt : PlanDate) : String :=
  let m := if dt.month < 3 then dt.month + 12 else dt.month
  let y := if dt.month < 3 then dt.year - 1 else dt.year
  let k := y % 100
  let j := y / 100
  let h := (dt.day + (13 * (m + 1)) / 5 + k + k / 4 + j / 4 + 5 * j) % 7
  ["Saturday", "Sunday", "Monday", "Tuesday", "Wednesday", "Thursday",
   "Friday"].getD h "Saturday"

/-- Model of `random.randint(lo, hi)` (inclusive bounds), driven by the head of an
explicit stream of raw draws. -/
def randNat (rs : List Nat) (lo hi : Nat) : Nat × List Nat :=
  (lo + rs.headD 0 % (hi + 1 - lo), rs.tail)

/-- Model of `random.sample(pool, k)`: pick `k` distinct positions without
replacement, each draw selecting an index into what remains of the pool. -/
def randomSample {α : Type} : List α → Nat → List Nat → List α × List Nat
  | _, 0, rs => ([], rs)
  | [], _ + 1, rs => ([], rs)
  | p :: ps, k + 1, rs =>
    let pool := p :: ps
    let i := rs.headD 0 % pool.length
    let chosen := pool.get ⟨i, Nat.mod_lt _ (Nat.succ_pos ps.length)⟩
    let rest := randomSample (pool.eraseIdx i) k rs.tail
    (chosen :: rest.1, rest.2)

/-- Model of `random.choice(pool)` on a nonempty pool (the meal tables); the empty
case, unreachable for validated requests, yields a zeroed meal. -/
def randChoice (pool : List Meal) (rs : List Nat) : Meal × List Nat :=
  match pool with
  | [] => ({ name := "", calories := 0, protein := 0, carbs := 0, fats := 0,
             description := "" }, rs)
  | p :: ps =>
    let l := p :: ps
    (l.get ⟨rs.headD 0 % l.length, Nat.mod_lt _ (Nat.succ_pos ps.length)⟩, rs.tail)

/-- The five constant focus areas cycled through by the workout loop. -/
def focusAreas : List String := ["Upper Body", "Lower Body", "Core"]

/-- One iteration of the workout loop of `generate_weekly_plan` (day index
`i` in `range(5)`). -/
def workoutDayFor (level : String) (duration : Int) (start : PlanDate)
    (i : Nat) (rs : List Nat) : WorkoutDay × List Nat :=
  let current_date := addDays start i
  let day_name := dayName current_date
  let focus_area := focusAreas.getD (i % focusAreas.length) "Upper Body"
  let exercises := EXERCISE_LIBRARY level focus_area
  let num_exercises : Nat := if duration == 30 then 3 else 5
  let sampled := randomSample exercises (min num_exercises exercises.length) rs
  let burn :=
    if duration == 30 then randNat sampled.2 200 300 else randNat sampled.2 400 600
  ({ day := day_name
     focus_area := focus_area
     exercises := sampled.1
     calories_burn_estimate := (burn.1 : Int) }, burn.2)

/-- The workout loop over the given day indices, threading the random
stream left to right. -/
def workoutDays (level : String) (duration : Int) (start : PlanDate) :
    List Nat → List Nat → List WorkoutDay × List Nat
  | [], rs => ([], rs)
  | i :: is, rs =>
    let d := workoutDayFor level duration start i rs
    let rest := workoutDays level duration start is d.2
    (d.1 :: rest.1, rest.2)

/-- One iteration of the diet loop of `generate_weekly_plan` (day index `i`
in `range(7)`): one random meal per meal type, calories summed. -/
def dietDayFor (level : String) (start : PlanDate) (i : Nat) (rs : List Nat) :
    DietDay × List Nat :=
  let day_name := dayName (addDays start i)
  let b := randChoice (MEAL_LIBRARY level "Breakfast") rs
  let l := randChoice (MEAL_LIBRARY level "Lunch") b.2
  let d := randChoice (MEAL_LIBRARY level "Dinner") l.2
  ({ day := day_name
     total_calories := b.1.calories + l.1.calories + d.1.calories
     meals := [b.1, l.1, d.1] }, d.2)

/-- The diet loop over the given day indices. -/
def dietDays (level : String) (start : PlanDate) :
    List Nat → List Nat → List DietDay × List Nat
  | [], rs => ([], rs)
  | i :: is, rs =>
    let d := dietDayFor level start i rs
    let rest := dietDays level start is d.2
    (d.1 :: rest.1, rest.2)

/-- Endpoint `POST /generate-plan` (`generate_weekly_plan` in the source), with the
random draws supplied as an explicit stream. -/
def generate_weekly_plan (request : WorkoutPlanRequest) (rs : List Nat) :
    Except HTTPException WeeklyPlan :=
  if request.fitness_level ∉ ["beginner", "advanced"] then
    Except.error { status_code := 400, detail := "Invalid fitness level" }
  else if request.duration_minutes ∉ [(30 : Int), 60] then
    Except.error { status_code := 400, detail := "Invalid duration" }
  else
    match parseDate request.start_date with
    | none => Except.error { status_code := 400, detail := "Invalid date format" }
    | some start_date =>
      let wp := workoutDays request.fitness_level request.duration_minutes
        start_date [0, 1, 2, 3, 4] rs
      let dp := dietDays request.fitness_level start_date
        [0, 1, 2, 3, 4, 5, 6] wp.2
      Except.ok { workout_plan := wp.1, diet_plan := dp.1 }

end Planner

namespace Api

/-- Two completed exercises: 30 s at difficulty 4 and 45 s at difficulty 2
(the worked example of the specification). -/
def fixtureCompletions : List WorkoutCompletion :=
  [{ exercise_id := "push-up-001", completed_sets := 1, actual_reps := [10],
     time_taken := 30, difficulty_rating := 4 },
   { exercise_id := "squat-001", completed_sets := 1, actual_reps := [12],
     time_taken := 45, difficulty_rating := 2 }]

/-- A single completed exercise, used as the body of a repeated
`complete_workout` call. -/
def fixtureCompletionB : List WorkoutCompletion :=
  [{ exercise_id := "squat-001", completed_sets := 1, actual_reps := [12],
     time_taken := 45, difficulty_rating := 2 }]

/-- A completion whose difficulty rating 10 lies outside [1,5]. -/
def fixtureOutOfRange : List WorkoutCompletion :=
  [{ exercise_id := "push-up-001", completed_sets := 1, actual_reps := [10],
     time_taken := 30, difficulty_rating := 10 }]

/-- Whether a selection's resolved exercise targets muscle group `g`
(false when the id does not resolve). -/
def targets (db : List (String × Exercise)) (s : ExerciseSelection)
    (g : MuscleGroup) : Bool :=
  match dbGet db s.exercise_id with
  | some e => e.muscle_groups.contains g
  | none => false

/-- The concatenation of the muscle-group lists of the resolved selections,
in processing order — the sequence of counter increments the validator
performs. -/
def groupsOf (db : List (String × Exercise)) :
    List ExerciseSelection → List MuscleGroup
  | [] => []
  | s :: ss =>
    (match dbGet db s.exercise_id with
     | some e => e.muscle_groups
     | none => []) ++ groupsOf db ss

/-- A one-exercise catalog whose entry targets Core. -/
def coreDb : List (String × Exercise) :=
  [("plank-001",
    { id := "plank-001"
      name := "Plank"
      muscle_groups := [MuscleGroup.CORE]
      description := "Hold a straight-body position on forearms and toes"
      equipment_needed := none
      difficulty_level := "beginner"
      recommended_rest := 45 })]

/-- Three selections of the Core exercise of `coreDb`. -/
def coreSels : List ExerciseSelection :=
  [{ exercise_id := "plank-001", sets := 3, reps := 10, rest_time := 45 },
   { exercise_id := "plank-001", sets := 3, reps := 10, rest_time := 45 },
   { exercise_id := "plank-001", sets := 3, reps := 10, rest_time := 45 }]

/-- The validator output on `coreDb`/`coreSels`: Core counted 3 times, one
warning, not valid. -/
def coreResult : ValidationResult :=
  { is_valid := false
    warnings := [warningMsg MuscleGroup.CORE 3]
    muscle_group_distribution := [(MuscleGroup.CORE, 3)] }

/-! ## Helper lemmas about the history store and `complete_workout` -/

theorem storeGet_storeSet (hist : HistoryMap) (key : String)
    (val : WorkoutHistory) : storeGet (storeSet hist key val) key = some val := by
  induction hist with
  | nil => simp [storeSet, storeGet]
  | cons p rest ih =>
    by_cases h : p.1 = key
    · simp [storeSet, storeGet, h]
    · simp [storeSet, storeGet, h, ih]

theorem complete_workout_eq (now sid : String)
    (completion : List WorkoutCompletion) (hist : HistoryMap)
    (h : completion ≠ []) :
    complete_workout now sid completion hist =
      (Except.ok (completeEntry now sid completion),
       storeSet hist sid (completeEntry now sid completion)) := by
  cases completion with
  | nil => exact absurd rfl h
  | cons a as => rfl

theorem list_sum_bounds (l : List Int) (lo hi : Int)
    (h : ∀ x ∈ l, lo ≤ x ∧ x ≤ hi) :
    lo * l.length ≤ l.sum ∧ l.sum ≤ hi * l.length := by
  induction l with
  | nil => simp
  | cons a as ih =>
    obtain ⟨h1, h2⟩ := h a (List.mem_cons_self a as)
    obtain ⟨ih1, ih2⟩ := ih (fun x hx => h x (List.mem_cons_of_mem a hx))
    simp only [List.sum_cons, List.length_cons]
    constructor
    · push_cast
      nlinarith
    · push_cast
      nlinarith

/-! ## Claims about `complete_workout` -/

/-- C1: for every non-empty completion list, `complete_workout` succeeds,
stores the returned `WorkoutHistory` under the session id, and that record
has `total_time` the sum of the completions' `time_taken` values and
`overall_difficulty` the arithmetic mean of their `difficulty_rating`
values. -/
theorem complete_workout_totals_and_mean (now sid : String)
    (completion : List WorkoutCompletion) (hist : HistoryMap)
    (h : completion ≠ []) :
    (complete_workout now sid completion hist).1 =
        Except.ok (completeEntry now sid completion) ∧
    storeGet (complete_workout now sid completion hist).2 sid =
        some (completeEntry now sid completion) ∧
    (completeEntry now sid completion).total_time =
        (completion.map (fun c => c.time_taken)).sum ∧
    (completeEntry now sid completion).overall_difficulty =
        (((completion.map (fun c => c.difficulty_rating)).sum : Int) : Rat) /
          ((completion.length : Nat) : Rat) := by
  rw [complete_workout_eq now sid completion hist h]
  exact ⟨rfl, storeGet_storeSet hist sid _, rfl, rfl⟩

/-- C1 witness: the completions (30 s, difficulty 4) and (45 s, difficulty 2)
yield `total_time = 75` and `overall_difficulty = 3`. -/
theorem complete_workout_totals_and_mean_witness :
    fixtureCompletions ≠ [] ∧
    ((complete_workout "2024-05-01T10:00:00" "workout_1" fixtureCompletions []).1 =
        Except.ok (completeEntry "2024-05-01T10:00:00" "workout_1" fixtureCompletions) ∧
      storeGet (complete_workout "2024-05-01T10:00:00" "workout_1"
          fixtureCompletions []).2 "workout_1" =
        some (completeEntry "2024-05-01T10:00:00" "workout_1" fixtureCompletions)) ∧
    (completeEntry "2024-05-01T10:00:00" "workout_1" fixtureCompletions).total_time = 75 ∧
    (completeEntry "2024-05-01T10:00:00" "workout_1" fixtureCompletions).overall_difficulty = 3 := by
  have h := complete_workout_totals_and_mean "2024-05-01T10:00:00" "workout_1"
    fixtureCompletions [] (by decide)
  exact ⟨by decide, ⟨h.1, h.2.1⟩, by decide,
    by norm_num [completeEntry, fixtureCompletions]⟩

/-- C6: `complete_workout` with an empty completion list fails with HTTP 400
`"No exercises completed"` and the history map is returned unchanged. -/
theorem complete_workout_empty_rejected (now sid : String) (hist : HistoryMap) :
    complete_workout now sid [] hist =
      (Except.error { status_code := 400, detail := "No exercises completed" },
       hist) := rfl

/-- C2 counterexample: completing the same session id a second time does not
fail — the second call succeeds and the store ends up holding the second
entry in place of the first, so no `SessionAlreadyCompleted` or
`DuplicateSession` rejection exists at this input. -/
theorem complete_workout_second_call_not_rejected :
    (complete_workout "T2" "workout_1" fixtureCompletionB
        (complete_workout "T1" "workout_1" fixtureCompletions []).2).1 =
      Except.ok (completeEntry "T2" "workout_1" fixtureCompletionB) ∧
    (complete_workout "T2" "workout_1" fixtureCompletionB
        (complete_workout "T1" "workout_1" fixtureCompletions []).2).2 =
      [("workout_1", completeEntry "T2" "workout_1" fixtureCompletionB)] := by
  exact ⟨rfl, rfl⟩

/-- C2 amended: `complete_workout` is not guarded by any session state — a
second call with the same session id (any non-empty bodies) also succeeds,
and the store afterwards holds the second call's entry for that id (a silent
overwrite rather than a `SessionAlreadyCompleted`/`DuplicateSession`
rejection). -/
theorem complete_workout_overwrites (sid t1 t2 : String)
    (cs1 cs2 : List WorkoutCompletion) (hist : HistoryMap)
    (h1 : cs1 ≠ []) (h2 : cs2 ≠ []) :
    (complete_workout t1 sid cs1 hist).1 = Except.ok (completeEntry t1 sid cs1) ∧
    (complete_workout t2 sid cs2 (complete_workout t1 sid cs1 hist).2).1 =
      Except.ok (completeEntry t2 sid cs2) ∧
    storeGet (complete_workout t2 sid cs2
        (complete_workout t1 sid cs1 hist).2).2 sid =
      some (completeEntry t2 sid cs2) := by
  rw [complete_workout_eq t1 sid cs1 hist h1, complete_workout_eq t2 sid cs2 _ h2]
  exact ⟨rfl, rfl, storeGet_storeSet _ sid _⟩

/-- C2 amended witness: both calls on session id `workout_1` succeed and the
second entry is the one stored. -/
theorem complete_workout_overwrites_witness :
    fixtureCompletions ≠ [] ∧ fixtureCompletionB ≠ [] ∧
    ((complete_workout "T1" "workout_1" fixtureCompletions []).1 =
        Except.ok (completeEntry "T1" "workout_1" fixtureCompletions) ∧
      (complete_workout "T2" "workout_1" fixtureCompletionB
          (complete_workout "T1" "workout_1" fixtureCompletions []).2).1 =
        Except.ok (completeEntry "T2" "workout_1" fixtureCompletionB) ∧
      storeGet (complete_workout "T2" "workout_1" fixtureCompletionB
          (complete_workout "T1" "workout_1" fixtureCompletions []).2).2 "workout_1" =
        some (completeEntry "T2" "workout_1" fixtureCompletionB)) := by
  exact ⟨by decide, by decide,
    complete_workout_overwrites "workout_1" "T1" "T2" fixtureCompletions
      fixtureCompletionB [] (by decide) (by decide)⟩

/-- C5 counterexample: a completion with difficulty rating 10 is accepted —
there is no `InvalidRating` rejection — and the stored history has
`overall_difficulty = 10`, outside [1,5]. -/
theorem complete_workout_accepts_invalid_rating :
    (complete_workout "T" "s1" fixtureOutOfRange []).1 =
      Except.ok (completeEntry "T" "s1" fixtureOutOfRange) ∧
    storeGet (complete_workout "T" "s1" fixtureOutOfRange []).2 "s1" =
      some (completeEntry "T" "s1" fixtureOutOfRange) ∧
    (completeEntry "T" "s1" fixtureOutOfRange).overall_difficulty = 10 ∧
    ¬ (completeEntry "T" "s1" fixtureOutOfRange).overall_difficulty ≤ 5 := by
  refine ⟨rfl, ?_, ?_, ?_⟩
  · rw [complete_workout_eq "T" "s1" fixtureOutOfRange [] (by decide)]
    exact storeGet_storeSet _ _ _
  · norm_num [completeEntry, fixtureOutOfRange]
  · norm_num [completeEntry, fixtureOutOfRange]

/-- C5 amended: ratings are not validated, but whenever every submitted
`difficulty_rating` lies in [1,5] (and the list is non-empty) the call
succeeds and the stored `overall_difficulty` lies in [1,5]. -/
theorem complete_workout_mean_in_range (now sid : String)
    (completion : List WorkoutCompletion) (hist : HistoryMap)
    (hne : completion ≠ [])
    (hr : ∀ c ∈ completion, 1 ≤ c.difficulty_rating ∧ c.difficulty_rating ≤ 5) :
    (complete_workout now sid completion hist).1 =
      Except.ok (completeEntry now sid completion) ∧
    1 ≤ (completeEntry now sid completion).overall_difficulty ∧
    (completeEntry now sid completion).overall_difficulty ≤ 5 := by
  have hmem : ∀ x ∈ completion.map (fun c => c.difficulty_rating),
      1 ≤ x ∧ x ≤ 5 := by
    intro x hx
    obtain ⟨c, hc, rfl⟩ := List.mem_map.mp hx
    exact hr c hc
  have hb := list_sum_bounds (completion.map (fun c => c.difficulty_rating)) 1 5 hmem
  rw [List.length_map] at hb
  have hlen : 0 < completion.length := List.length_pos.mpr hne
  have hlenR : (0 : Rat) < ((completion.length : Nat) : Rat) := by
    exact_mod_cast hlen
  refine ⟨by rw [complete_workout_eq now sid completion hist hne], ?_, ?_⟩
  · show (1 : Rat) ≤ _ / _
    rw [le_div_iff₀ hlenR, one_mul]
    have h1 := hb.1
    rw [one_mul] at h1
    exact_mod_cast h1
  · show _ / _ ≤ (5 : Rat)
    rw [div_le_iff₀ hlenR]
    exact_mod_cast hb.2

/-! ## Unknown-exercise rejection (C4) -/

theorem validateLoop_unknown (db : List (String × Exercise))
    (sels : List ExerciseSelection) :
    ∀ (counts : List (MuscleGroup × Nat)) (warnings : List String) (id : String),
      firstUnknown db sels = some id →
      validateLoop db counts warnings sels =
        Except.error { status_code := 400
                       detail := "Exercise " ++ id ++ " not found" } := by
  induction sels with
  | nil =>
    intro counts warnings id h
    simp [firstUnknown] at h
  | cons s ss ih =>
    intro counts warnings id h
    rcases hd : dbGet db s.exercise_id with _ | e
    · have hpos : (dbGet db s.exercise_id).isNone = true := by rw [hd]; rfl
      have hid : id = s.exercise_id := by
        rw [firstUnknown, List.find?_cons_of_pos ss hpos] at h
        simpa using h.symm
      subst hid
      simp [validateLoop, hd]
    · have hneg : ¬ ((dbGet db s.exercise_id).isNone = true) := by
        rw [hd]; simp
      have h' : firstUnknown db ss = some id := by
        rw [firstUnknown, List.find?_cons_of_neg ss hneg] at h
        exact h
      simpa [validateLoop, hd] using ih _ _ _ h'

theorem buildPlan_unknown (db : List (String × Exercise))
    (sels : List ExerciseSelection) (id : String)
    (h : firstUnknown db sels = some id) :
    buildPlan db sels =
      Except.error { status_code := 400
                     detail := "Exercise " ++ id ++ " not found" } := by
  induction sels with
  | nil => simp [firstUnknown] at h
  | cons s ss ih =>
    rcases hd : dbGet db s.exercise_id with _ | e
    · have hpos : (dbGet db s.exercise_id).isNone = true := by rw [hd]; rfl
      have hid : id = s.exercise_id := by
        rw [firstUnknown, List.find?_cons_of_pos ss hpos] at h
        simpa using h.symm
      subst hid
      simp [buildPlan, hd]
    · have hneg : ¬ ((dbGet db s.exercise_id).isNone = true) := by
        rw [hd]; simp
      have h' : firstUnknown db ss = some id := by
        rw [firstUnknown, List.find?_cons_of_neg ss hneg] at h
        exact h
      simp [buildPlan, hd, ih h', Except.map]

/-- C4: when some selection references an id missing from the catalog, both
`validate_workout` and `start_workout` reject the whole request with the
HTTP 400 "Exercise ... not found" error naming that unknown id. -/
theorem unknown_exercise_rejected (db : List (String × Exercise))
    (sels : List ExerciseSelection) (now_stamp now_iso date id : String)
    (h : firstUnknown db sels = some id) :
    dbGet db id = none ∧
    validate_workout db sels =
      Except.error { status_code := 400
                     detail := "Exercise " ++ id ++ " not found" } ∧
    start_workout db now_stamp now_iso { date := date, exercises := sels } =
      Except.error { status_code := 400
                     detail := "Exercise " ++ id ++ " not found" } := by
  refine ⟨?_, ?_, ?_⟩
  · obtain ⟨s, hfind, hid⟩ := Option.map_eq_some'.mp h
    have hp := List.find?_some hfind
    rw [← hid]
    exact Option.isNone_iff_eq_none.mp hp
  · rw [validate_workout, validateLoop_unknown db sels [] [] id h]
  · rw [start_workout]
    simp [buildPlan_unknown db sels id h, Except.map]

/-- C4 witness: the single selection `bench-001`, an id absent from the
catalog, is rejected by both endpoints. -/
theorem unknown_exercise_rejected_witness :
    firstUnknown EXERCISE_DATABASE
      [{ exercise_id := "bench-001", sets := 3, reps := 10, rest_time := 60 }] =
      some "bench-001" ∧
    (dbGet EXERCISE_DATABASE "bench-001" = none ∧
     validate_workout EXERCISE_DATABASE
       [{ exercise_id := "bench-001", sets := 3, reps := 10, rest_time := 60 }] =
       Except.error { status_code := 400
                      detail := "Exercise " ++ "bench-001" ++ " not found" } ∧
     start_workout EXERCISE_DATABASE "20240501_100000" "2024-05-01T10:00:00"
       { date := "2024-05-01"
         exercises :=
           [{ exercise_id := "bench-001", sets := 3, reps := 10, rest_time := 60 }] } =
       Except.error { status_code := 400
                      detail := "Exercise " ++ "bench-001" ++ " not found" }) := by
  exact ⟨by decide,
    unknown_exercise_rejected EXERCISE_DATABASE
      [{ exercise_id := "bench-001", sets := 3, reps := 10, rest_time := 60 }]
      "20240501_100000" "2024-05-01T10:00:00" "2024-05-01" "bench-001" (by decide)⟩

/-! ## History query (C7) -/

/-- C7: the history query returns the sentinel message exactly when no
stored history's date stamp starts with the queried string; otherwise it
returns precisely the stored histories with that prefix, as a sublist of the
stored values (insertion order). -/
theorem workout_history_query_spec (date : String) (hist : HistoryMap) :
    (get_workout_history date hist =
        HistoryResponse.message "No workouts found for this date" ↔
      ∀ s ∈ hist.map Prod.snd, strStartsWith s.date date = false) ∧
    (∀ l, get_workout_history date hist = HistoryResponse.histories l →
      l.Sublist (hist.map Prod.snd) ∧
      ∀ s ∈ hist.map Prod.snd, (strStartsWith s.date date = true ↔ s ∈ l)) := by
  by_cases he :
      (hist.map Prod.snd).filter (fun session => strStartsWith session.date date) = []
  · constructor
    · rw [get_workout_history]
      simp only [he, List.isEmpty_nil, if_true, true_iff]
      intro s hs
      have := List.filter_eq_nil_iff.mp he s hs
      simpa using this
    · intro l hl
      rw [get_workout_history] at hl
      simp [he] at hl
  · constructor
    · rw [get_workout_history]
      have hne : ((hist.map Prod.snd).filter
          (fun session => strStartsWith session.date date)).isEmpty = false := by
        simpa [List.isEmpty_iff] using he
      simp only [hne, Bool.false_eq_true, if_false]
      constructor
      · intro hcontra
        exact absurd hcontra (by simp)
      · intro hall
        exact absurd (List.filter_eq_nil_iff.mpr
          (by intro a ha; simp [hall a ha])) he
    · intro l hl
      rw [get_workout_history] at hl
      have hne : ((hist.map Prod.snd).filter
          (fun session => strStartsWith session.date date)).isEmpty = false := by
        simpa [List.isEmpty_iff] using he
      simp only [hne, Bool.false_eq_true, if_false,
        HistoryResponse.histories.injEq] at hl
      subst hl
      refine ⟨List.filter_sublist _, ?_⟩
      intro s hs
      constructor
      · intro hpre
        exact List.mem_filter.mpr ⟨hs, hpre⟩
      · intro hmem
        exact (List.mem_filter.mp hmem).2

/-- C7 witness: a store with one 2024 session — the 2024 query returns
exactly that session (a sublist of the stored values), the 2025 query
returns the sentinel. -/
theorem workout_history_query_spec_witness :
    [completeEntry "2024-05-01T10:00:00" "workout_1" fixtureCompletions].Sublist
      ([("workout_1",
        completeEntry "2024-05-01T10:00:00" "workout_1" fixtureCompletions)].map
          Prod.snd) ∧
    (get_workout_history "2025" [("workout_1",
        completeEntry "2024-05-01T10:00:00" "workout_1" fixtureCompletions)] =
      HistoryResponse.message "No workouts found for this date") := by
  constructor
  · exact ((workout_history_query_spec "2024" [("workout_1",
      completeEntry "2024-05-01T10:00:00" "workout_1" fixtureCompletions)]).2
      [completeEntry "2024-05-01T10:00:00" "workout_1" fixtureCompletions]
      rfl).1
  · exact (workout_history_query_spec "2025" [("workout_1",
      completeEntry "2024-05-01T10:00:00" "workout_1" fixtureCompletions)]).1.mpr
      (by decide)

/-! ## Frame conditions (C10) -/

/-- C10: only `complete_workout` writes the history store — every
non-complete request leaves the whole server state unchanged (in particular
`start_workout` records nothing) — and no request whatsoever changes the
exercise catalog. -/
theorem step_frame (st : ServerState) (req : Request) :
    (step st req).2.exercise_database = st.exercise_database ∧
    (req.isComplete = false → (step st req).2 = st) := by
  cases req with
  | completeWorkout now_iso session_id completion =>
    constructor
    · rcases hc : complete_workout now_iso session_id completion st.workout_history
        with ⟨r, hist1⟩
      cases r <;> simp [step, hc]
    · intro h
      simp [Request.isComplete] at h
  | getExercises => exact ⟨rfl, fun _ => rfl⟩
  | getExercisesByMuscle g => exact ⟨rfl, fun _ => rfl⟩
  | validateWorkout selections => exact ⟨rfl, fun _ => rfl⟩
  | startWorkout now_stamp now_iso workout => exact ⟨rfl, fun _ => rfl⟩
  | workoutHistory date => exact ⟨rfl, fun _ => rfl⟩
  | exportHistory date => exact ⟨rfl, fun _ => rfl⟩

/-- C10 witness: a start-workout request (and a history query) against a
concrete state leave the state untouched. -/
theorem step_frame_witness :
    (step { exercise_database := EXERCISE_DATABASE, workout_history := [] }
        (Request.startWorkout "20240501_100000" "2024-05-01T10:00:00"
          { date := "2024-05-01"
            exercises := [{ exercise_id := "squat-001", sets := 3, reps := 10,
                            rest_time := 60 }] })).2 =
      { exercise_database := EXERCISE_DATABASE, workout_history := [] } ∧
    (step { exercise_database := EXERCISE_DATABASE, workout_history := [] }
        (Request.workoutHistory "2024")).2 =
      { exercise_database := EXERCISE_DATABASE, workout_history := [] } := by
  constructor
  · exact (step_frame
      { exercise_database := EXERCISE_DATABASE, workout_history := [] }
      (Request.startWorkout "20240501_100000" "2024-05-01T10:00:00"
        { date := "2024-05-01"
          exercises := [{ exercise_id := "squat-001", sets := 3, reps := 10,
                          rest_time := 60 }] })).2 rfl
  · exact (step_frame
      { exercise_database := EXERCISE_DATABASE, workout_history := [] }
      (Request.workoutHistory "2024")).2 rfl

/-- C5 amended witness: with in-range ratings 4 and 2 the stored mean 3 lies
in [1,5]. -/
theorem complete_workout_mean_in_range_witness :
    fixtureCompletions ≠ [] ∧
    ((complete_workout "T" "s1" fixtureCompletions []).1 =
        Except.ok (completeEntry "T" "s1" fixtureCompletions) ∧
      1 ≤ (completeEntry "T" "s1" fixtureCompletions).overall_difficulty ∧
      (completeEntry "T" "s1" fixtureCompletions).overall_difficulty ≤ 5) := by
  exact ⟨by decide,
    complete_workout_mean_in_range "T" "s1" fixtureCompletions [] (by decide)
      (by decide)⟩

/-! ## Validator distribution and warnings (C3) -/

theorem getCount_setCount_self (c : List (MuscleGroup × Nat)) (g : MuscleGroup)
    (n : Nat) : getCount (setCount c g n) g = n := by
  induction c with
  | nil => simp [setCount, getCount]
  | cons p rest ih => by_cases h : p.1 = g <;> simp [setCount, getCount, h, ih]

theorem getCount_setCount_ne (c : List (MuscleGroup × Nat)) (g g' : MuscleGroup)
    (n : Nat) (h : g' ≠ g) : getCount (setCount c g n) g' = getCount c g' := by
  induction c with
  | nil => simp [setCount, getCount, Ne.symm h]
  | cons p rest ih =>
    by_cases hp : p.1 = g
    · simp [setCount, getCount, hp, Ne.symm h]
    · simp [setCount, getCount, hp, ih]

theorem getCount_incr_self (c : List (MuscleGroup × Nat)) (g : MuscleGroup) :
    getCount (incrCount c g) g = getCount c g + 1 := by
  simp [incrCount, getCount_setCount_self]

theorem getCount_incr_ne (c : List (MuscleGroup × Nat)) (g g' : MuscleGroup)
    (h : g' ≠ g) : getCount (incrCount c g) g' = getCount c g' := by
  simp [incrCount, getCount_setCount_ne c g g' _ h]

theorem tallyGroups_counts (gs : List MuscleGroup) :
    ∀ (c : List (MuscleGroup × Nat)) (w : List String) (g : MuscleGroup),
      getCount (tallyGroups c w gs).1 g = getCount c g + gs.count g := by
  induction gs with
  | nil => intro c w g; simp [tallyGroups]
  | cons g0 gs ih =>
    intro c w g
    simp only [tallyGroups]
    by_cases hg : g = g0
    · subst hg
      rw [ih, getCount_incr_self, List.count_cons]
      simp only [beq_self_eq_true, if_true]
      omega
    · rw [ih, getCount_incr_ne c g0 g hg, List.count_cons]
      have hb : (g0 == g) = false := by simp [Ne.symm hg]
      simp [hb]

theorem tallyGroups_warnings_append (gs : List MuscleGroup) :
    ∀ (c : List (MuscleGroup × Nat)) (w : List String),
      (tallyGroups c w gs).2 = w ++ (tallyGroups c [] gs).2 := by
  induction gs with
  | nil => intro c w; simp [tallyGroups]
  | cons g0 gs ih =>
    intro c w
    simp only [tallyGroups]
    by_cases hb : 2 < getCount (incrCount c g0) g0
    · simp only [if_pos hb]
      rw [ih (incrCount c g0) (w ++ [warningMsg g0 (getCount (incrCount c g0) g0)]),
        ih (incrCount c g0) ([] ++ [warningMsg g0 (getCount (incrCount c g0) g0)])]
      simp
    · simp only [if_neg hb]
      exact ih (incrCount c g0) w

theorem tallyGroups_warnings_nil (gs : List MuscleGroup) :
    ∀ (c : List (MuscleGroup × Nat)),
      (tallyGroups c [] gs).2 = [] ↔
        ∀ g ∈ gs, getCount c g + gs.count g ≤ 2 := by
  induction gs with
  | nil => intro c; simp [tallyGroups]
  | cons g0 gs ih =>
    intro c
    simp only [tallyGroups]
    rw [tallyGroups_warnings_append, List.append_eq_nil, ih, getCount_incr_self]
    by_cases hb : 2 < getCount c g0 + 1
    · simp only [if_pos hb]
      constructor
      · rintro ⟨hw1, -⟩
        exact absurd hw1 (by simp)
      · intro hall
        have h0 := hall g0 (List.mem_cons_self g0 gs)
        rw [List.count_cons] at h0
        simp only [beq_self_eq_true, if_true] at h0
        exact absurd hb (by omega)
    · simp only [if_neg hb]
      constructor
      · rintro ⟨-, htail⟩ g hg
        by_cases hg0 : g = g0
        · subst hg0
          rw [List.count_cons]
          simp only [beq_self_eq_true, if_true]
          by_cases hmem : g ∈ gs
          · have h1 := htail g hmem
            rw [getCount_incr_self] at h1
            omega
          · have h0 : gs.count g = 0 := List.count_eq_zero.mpr hmem
            omega
        · have hgmem : g ∈ gs := by
            rcases List.mem_cons.mp hg with h | h
            · exact absurd h hg0
            · exact h
          have h1 := htail g hgmem
          rw [getCount_incr_ne c g0 g hg0] at h1
          rw [List.count_cons]
          have hbeq : (g0 == g) = false := by simp [Ne.symm hg0]
          simp only [hbeq, Bool.false_eq_true, if_false]
          omega
      · intro hall
        refine ⟨trivial, ?_⟩
        · intro g hg
          have h1 := hall g (List.mem_cons_of_mem g0 hg)
          rw [List.count_cons] at h1
          by_cases hg0 : g = g0
          · subst hg0
            rw [getCount_incr_self]
            simp only [beq_self_eq_true, if_true] at h1
            omega
          · rw [getCount_incr_ne c g0 g hg0]
            have hbeq : (g0 == g) = false := by simp [Ne.symm hg0]
            simp only [hbeq, Bool.false_eq_true, if_false] at h1
            omega

theorem tallyGroups_warning_mem (gs : List MuscleGroup) :
    ∀ (c : List (MuscleGroup × Nat)) (w : List String) (g : MuscleGroup),
      g ∈ gs → 2 < getCount c g + gs.count g →
      warningMsg g (getCount c g + gs.count g) ∈ (tallyGroups c w gs).2 := by
  induction gs with
  | nil => intro c w g hg _; exact absurd hg (List.not_mem_nil g)
  | cons g0 gs ih =>
    intro c w g hg hgt
    simp only [tallyGroups]
    by_cases hmem : g ∈ gs
    · have heq : getCount c g + (g0 :: gs).count g =
          getCount (incrCount c g0) g + gs.count g := by
        rw [List.count_cons]
        by_cases hgg : g = g0
        · subst hgg
          rw [getCount_incr_self]
          simp only [beq_self_eq_true, if_true]
          omega
        · rw [getCount_incr_ne c g0 g hgg]
          have hbeq : (g0 == g) = false := by simp [Ne.symm hgg]
          simp [hbeq]
      rw [heq] at hgt ⊢
      exact ih (incrCount c g0) _ g hmem hgt
    · have hgg : g = g0 := by
        rcases List.mem_cons.mp hg with h | h
        · exact h
        · exact absurd h hmem
      subst hgg
      have hcnt : gs.count g = 0 := List.count_eq_zero.mpr hmem
      have harg : getCount c g + (g :: gs).count g = getCount c g + 1 := by
        rw [List.count_cons]
        simp [hcnt]
      rw [harg] at hgt ⊢
      rw [getCount_incr_self, if_pos hgt]
      rw [tallyGroups_warnings_append]
      exact List.mem_append_left _ (List.mem_append_right w (by simp))

theorem tallyGroups_append (xs ys : List MuscleGroup) :
    ∀ (c : List (MuscleGroup × Nat)) (w : List String),
      tallyGroups c w (xs ++ ys) =
        tallyGroups (tallyGroups c w xs).1 (tallyGroups c w xs).2 ys := by
  induction xs with
  | nil => intro c w; simp [tallyGroups]
  | cons x xs ih =>
    intro c w
    simp only [List.cons_append, tallyGroups]
    exact ih _ _

theorem validateLoop_ok (db : List (String × Exercise))
    (sels : List ExerciseSelection) :
    ∀ (c : List (MuscleGroup × Nat)) (w : List String),
      (∀ s ∈ sels, (dbGet db s.exercise_id).isSome = true) →
      validateLoop db c w sels =
        Except.ok (tallyGroups c w (groupsOf db sels)) := by
  induction sels with
  | nil => intro c w _; simp [validateLoop, groupsOf, tallyGroups]
  | cons s ss ih =>
    intro c w h
    obtain ⟨e, he⟩ := Option.isSome_iff_exists.mp (h s (List.mem_cons_self s ss))
    simp only [validateLoop, groupsOf, he]
    rw [tallyGroups_append]
    exact ih _ _ (fun x hx => h x (List.mem_cons_of_mem s hx))

theorem groupsOf_count (db : List (String × Exercise))
    (hdb : ∀ p ∈ db, p.2.muscle_groups.Nodup) (g : MuscleGroup) :
    ∀ (sels : List ExerciseSelection),
      (groupsOf db sels).count g = sels.countP (fun s => targets db s g) := by
  intro sels
  induction sels with
  | nil => simp [groupsOf]
  | cons s ss ih =>
    rcases he : dbGet db s.exercise_id with _ | e
    · simp [groupsOf, he, ih, List.countP_cons, targets]
    · have hnd : e.muscle_groups.Nodup := by
        rw [dbGet] at he
        rcases hf : db.find? (fun p => p.1 == s.exercise_id) with _ | p
        · rw [hf] at he; exact absurd he (by simp)
        · rw [hf] at he
          have hpe : p.2 = e := by
            simpa using he
          rw [← hpe]
          exact hdb p (List.mem_of_find?_eq_some hf)
      simp only [groupsOf, he, List.count_append, ih, List.countP_cons, targets]
      by_cases hc : g ∈ e.muscle_groups
      · rw [List.count_eq_one_of_mem hnd hc]
        have : e.muscle_groups.contains g = true := by simp [hc]
        simp only [this, if_true]
        omega
      · rw [List.count_eq_zero.mpr hc]
        have : e.muscle_groups.contains g = false := by simp [hc]
        simp only [this, Bool.false_eq_true, if_false]
        omega

theorem validate_workout_ok_eq (db : List (String × Exercise))
    (sels : List ExerciseSelection)
    (hres : ∀ s ∈ sels, (dbGet db s.exercise_id).isSome = true) :
    validate_workout db sels =
      Except.ok
        { is_valid := (tallyGroups [] [] (groupsOf db sels)).2.length == 0
          warnings := (tallyGroups [] [] (groupsOf db sels)).2
          muscle_group_distribution := (tallyGroups [] [] (groupsOf db sels)).1 } := by
  rw [validate_workout, validateLoop_ok db sels [] [] hres]

/-- C3: when every selection resolves (and the catalog lists each exercise's
muscle groups without duplicates), the validator succeeds; its distribution
maps each muscle group to the number of selections targeting it, its
warnings list is empty exactly when no group's count exceeds 2, a warning
naming the group and its final count is present for every group whose count
exceeds 2, and `is_valid` holds exactly when the warnings list is empty. -/
theorem validate_workout_distribution (db : List (String × Exercise))
    (sels : List ExerciseSelection)
    (hdb : ∀ p ∈ db, p.2.muscle_groups.Nodup)
    (hres : ∀ s ∈ sels, (dbGet db s.exercise_id).isSome = true) :
    (validate_workout db sels).isOk = true ∧
    ∀ r, validate_workout db sels = Except.ok r →
      (∀ g, getCount r.muscle_group_distribution g =
        sels.countP (fun s => targets db s g)) ∧
      (r.warnings = [] ↔
        ∀ g, getCount r.muscle_group_distribution g ≤ 2) ∧
      (∀ g, 2 < getCount r.muscle_group_distribution g →
        warningMsg g (getCount r.muscle_group_distribution g) ∈ r.warnings) ∧
      (r.is_valid = true ↔ r.warnings = []) := by
  constructor
  · rw [validate_workout_ok_eq db sels hres]
    rfl
  · intro r hr
    rw [validate_workout_ok_eq db sels hres] at hr
    have heq := Except.ok.inj hr
    subst heq
    dsimp only
    have hdist : ∀ g, getCount (tallyGroups [] [] (groupsOf db sels)).1 g =
        (groupsOf db sels).count g := by
      intro g
      rw [tallyGroups_counts (groupsOf db sels) [] [] g]
      simp [getCount]
    refine ⟨?_, ?_, ?_, ?_⟩
    · intro g
      rw [hdist g]
      exact groupsOf_count db hdb g sels
    · rw [tallyGroups_warnings_nil (groupsOf db sels) []]
      constructor
      · intro h g
        rw [hdist g]
        by_cases hmem : g ∈ groupsOf db sels
        · have h1 := h g hmem
          simp only [getCount] at h1
          omega
        · rw [List.count_eq_zero.mpr hmem]
          omega
      · intro h g hmem
        have h1 := h g
        rw [hdist g] at h1
        simp only [getCount]
        omega
    · intro g hgt
      rw [hdist g] at hgt
      have hmem : g ∈ groupsOf db sels := List.count_pos_iff.mp (by omega)
      have hw := tallyGroups_warning_mem (groupsOf db sels) [] [] g hmem
        (by simp only [getCount]; omega)
      simp only [getCount, Nat.zero_add] at hw
      rw [hdist g]
      exact hw
    · simp [List.length_eq_zero]

/-- C3 witness: three selections of the Core exercise give a Core count of
3, a warning naming Core and 3, and `is_valid = false`. -/
theorem validate_workout_distribution_witness :
    (validate_workout coreDb coreSels).isOk = true ∧
    (∀ g, getCount coreResult.muscle_group_distribution g =
      coreSels.countP (fun s => targets coreDb s g)) ∧
    (coreResult.warnings = [] ↔
      ∀ g, getCount coreResult.muscle_group_distribution g ≤ 2) ∧
    (∀ g, 2 < getCount coreResult.muscle_group_distribution g →
      warningMsg g (getCount coreResult.muscle_group_distribution g) ∈
        coreResult.warnings) ∧
    (coreResult.is_valid = true ↔ coreResult.warnings = []) := by
  have h := validate_workout_distribution coreDb coreSels (by decide) (by decide)
  obtain ⟨ha, hb, hc, hd⟩ := h.2 coreResult rfl
  exact ⟨h.1, ha, hb, hc, hd⟩

end Api

namespace Planner

/-! ## Plan generator: exercise counts (C8) and input validation (C9) -/

theorem randomSample_length {α : Type} :
    ∀ (k : Nat) (pool : List α) (rs : List Nat),
      (randomSample pool k rs).1.length = min k pool.length := by
  intro k
  induction k with
  | zero => intro pool rs; simp [randomSample]
  | succ k ih =>
    intro pool rs
    cases pool with
    | nil => simp [randomSample]
    | cons p ps =>
      have hi : rs.headD 0 % (p :: ps).length < (p :: ps).length :=
        Nat.mod_lt _ (Nat.succ_pos ps.length)
      simp only [randomSample, List.length_cons, ih]
      rw [List.length_eraseIdx]
      simp only [List.length_cons] at hi ⊢
      rw [if_pos hi]
      omega

theorem workoutDayFor_spec (level : String) (duration : Int) (start : PlanDate)
    (i : Nat) (rs : List Nat) :
    (workoutDayFor level duration start i rs).1.focus_area ∈ focusAreas ∧
    (workoutDayFor level duration start i rs).1.exercises.length =
      min (if duration = 30 then 3 else 5)
        (EXERCISE_LIBRARY level
          (workoutDayFor level duration start i rs).1.focus_area).length := by
  constructor
  · have h3 : i % 3 = 0 ∨ i % 3 = 1 ∨ i % 3 = 2 := by omega
    rcases h3 with h | h | h <;> simp [workoutDayFor, focusAreas, h]
  · by_cases hdu : duration = 30 <;>
      simp [workoutDayFor, randomSample_length, hdu]

theorem workoutDays_spec (level : String) (duration : Int) (start : PlanDate) :
    ∀ (idxs : List Nat) (rs : List Nat),
      (workoutDays level duration start idxs rs).1.length = idxs.length ∧
      ∀ wd ∈ (workoutDays level duration start idxs rs).1,
        wd.focus_area ∈ focusAreas ∧
        wd.exercises.length =
          min (if duration = 30 then 3 else 5)
            (EXERCISE_LIBRARY level wd.focus_area).length := by
  intro idxs
  induction idxs with
  | nil => intro rs; simp [workoutDays]
  | cons i is ih =>
    intro rs
    constructor
    · simp [workoutDays, (ih _).1]
    · intro wd hwd
      simp only [workoutDays, List.mem_cons] at hwd
      rcases hwd with h | h
      · subst h; exact workoutDayFor_spec level duration start i rs
      · exact (ih _).2 wd h

theorem table_length (level focus : String)
    (hl : level = "beginner" ∨ level = "advanced") (hf : focus ∈ focusAreas) :
    (EXERCISE_LIBRARY level focus).length = 3 := by
  simp only [focusAreas, List.mem_cons, List.not_mem_nil, or_false] at hf
  rcases hl with h | h <;> rcases hf with h2 | h2 | h2 <;> subst h <;> subst h2 <;> rfl

/-- C8: for every valid request, all 5 generated workout days have exactly 3
exercises when `duration_minutes = 30`, and `min 5 (table size)` exercises
when `duration_minutes = 60`, for every possible stream of random draws. -/
theorem generate_plan_exercise_counts (req : WorkoutPlanRequest) (rs : List Nat)
    (hl : req.fitness_level = "beginner" ∨ req.fitness_level = "advanced")
    (hd : req.duration_minutes = 30 ∨ req.duration_minutes = 60)
    (hdate : (parseDate req.start_date).isSome = true) :
    (generate_weekly_plan req rs).isOk = true ∧
    ∀ plan, generate_weekly_plan req rs = Except.ok plan →
      plan.workout_plan.length = 5 ∧
      ∀ wd ∈ plan.workout_plan,
        wd.exercises.length =
          if req.duration_minutes = 30 then 3
          else min 5 (EXERCISE_LIBRARY req.fitness_level wd.focus_area).length := by
  have hmem : req.fitness_level ∈ ["beginner", "advanced"] := by
    rcases hl with h | h <;> simp [h]
  have hdm : req.duration_minutes ∈ [(30 : Int), 60] := by
    rcases hd with h | h <;> simp [h]
  obtain ⟨start, hstart⟩ := Option.isSome_iff_exists.mp hdate
  rw [generate_weekly_plan, if_neg (not_not_intro hmem),
    if_neg (not_not_intro hdm), hstart]
  constructor
  · rfl
  · intro plan hplan
    injection hplan with hplan
    subst hplan
    have hw := workoutDays_spec req.fitness_level req.duration_minutes start
      [0, 1, 2, 3, 4] rs
    refine ⟨by simpa using hw.1, ?_⟩
    intro wd hwd
    obtain ⟨hfocus, hlen⟩ := hw.2 wd hwd
    rcases hd with h30 | h60
    · rw [hlen, table_length req.fitness_level wd.focus_area hl hfocus, h30]
      simp
    · have hne : req.duration_minutes ≠ 30 := by rw [h60]; decide
      rw [hlen]
      simp [hne]

/-- C8 witness: a beginner 30-minute request on 2024-01-01 produces a plan
with 5 valid workout days (with the day sizes given by the theorem). -/
theorem generate_plan_exercise_counts_witness :
    ((parseDate "2024-01-01").isSome = true) ∧
    ((generate_weekly_plan { fitness_level := "beginner", duration_minutes := 30,
                             start_date := "2024-01-01" } []).isOk = true ∧
      ∀ plan, generate_weekly_plan { fitness_level := "beginner",
                                     duration_minutes := 30,
                                     start_date := "2024-01-01" } [] =
          Except.ok plan →
        plan.workout_plan.length = 5 ∧
        ∀ wd ∈ plan.workout_plan,
          wd.exercises.length =
            if (30 : Int) = 30 then 3
            else min 5 (EXERCISE_LIBRARY "beginner" wd.focus_area).length) := by
  exact ⟨by decide,
    generate_plan_exercise_counts
      { fitness_level := "beginner", duration_minutes := 30,
        start_date := "2024-01-01" }
      [] (Or.inl rfl) (Or.inl rfl) (by decide)⟩

/-- C9: an unrecognised fitness level is rejected with 400 "Invalid fitness
level"; with a valid level, a duration outside {30, 60} is rejected with 400
"Invalid duration"; with valid level and duration, an unparseable start date
is rejected with 400 "Invalid date format" — in each case no plan is
produced. -/
theorem generate_plan_rejects_invalid (req : WorkoutPlanRequest) (rs : List Nat) :
    (req.fitness_level ∉ ["beginner", "advanced"] →
      generate_weekly_plan req rs =
        Except.error { status_code := 400, detail := "Invalid fitness level" }) ∧
    (req.fitness_level ∈ ["beginner", "advanced"] →
      req.duration_minutes ∉ [(30 : Int), 60] →
      generate_weekly_plan req rs =
        Except.error { status_code := 400, detail := "Invalid duration" }) ∧
    (req.fitness_level ∈ ["beginner", "advanced"] →
      req.duration_minutes ∈ [(30 : Int), 60] →
      parseDate req.start_date = none →
      generate_weekly_plan req rs =
        Except.error { status_code := 400, detail := "Invalid date format" }) := by
  refine ⟨?_, ?_, ?_⟩
  · intro h
    rw [generate_weekly_plan, if_pos h]
  · intro h1 h2
    rw [generate_weekly_plan, if_neg (not_not_intro h1), if_pos h2]
  · intro h1 h2 h3
    rw [generate_weekly_plan, if_neg (not_not_intro h1),
      if_neg (not_not_intro h2), h3]

/-- C9 witness: level "intermediate", duration 45, and date "not-a-date" are
each rejected with the corresponding 400 error. -/
theorem generate_plan_rejects_invalid_witness :
    (generate_weekly_plan { fitness_level := "intermediate",
                            duration_minutes := 30,
                            start_date := "2024-01-01" } [] =
      Except.error { status_code := 400, detail := "Invalid fitness level" }) ∧
    (generate_weekly_plan { fitness_level := "beginner",
                            duration_minutes := 45,
                            start_date := "2024-01-01" } [] =
      Except.error { status_code := 400, detail := "Invalid duration" }) ∧
    (generate_weekly_plan { fitness_level := "beginner",
                            duration_minutes := 30,
                            start_date := "not-a-date" } [] =
      Except.error { status_code := 400, detail := "Invalid date format" }) := by
  refine ⟨?_, ?_, ?_⟩
  · exact (generate_plan_rejects_invalid _ []).1 (by decide)
  · exact (generate_plan_rejects_invalid _ []).2.1 (by decide) (by decide)
  · exact (generate_plan_rejects_invalid _ []).2.2 (by decide) (by decide)
      (by decide)

end Planner

end Fitness
